import Mathlib

/-!
Shallow embedding of the purchase orchestration engine of `solidml/unlock`:
the `purchaseKey` wallet-service function (amount resolution, transaction
value, allowance approval, gas estimation, submission, receipt
confirmation) and the `ConfirmSwapAndPurchase.onConfirmCrypto` checkout
handler (swap-route construction, per-recipient request arrays).

Remote calls (contract reads, fee data, gas estimate, receipt wait) are
modelled by an environment record supplying their results; a call that can
throw is an `Option` field (`none` = the call failed). Addresses are
strings; JavaScript truthiness on an optional numeric field is `none` or
`some 0` being falsy. Amounts are natural numbers: `BigInt` division in
the source is floor division, matching `Nat` division.
-/

namespace Unlock

/-- The zero address: the `ZERO` constant of the source, the sentinel for
the native currency. -/
def ZERO : String := "0x0000000000000000000000000000000000000000"

/-- Models `s.toLowerCase()` on an address string: lowercase every
character (spelled through the character list so that it evaluates by
kernel reduction). -/
def toLowerAddr (s : String) : String := String.mk (s.data.map Char.toLower)

/-- JavaScript truthiness of an optional numeric field: `undefined`/`null`
and `0` are falsy. -/
def truthy : Option Nat → Bool
  | none => false
  | some n => n != 0

/-- A log entry as parsed by `lockContract.interface.parseLog`: the event
name and its `tokenId` argument. -/
structure ParsedEvent where
  name : String
  tokenId : Nat
deriving Repr, DecidableEq

/-- A receipt log: its emitting address, and what the lock interface
would decode it to (`none` when `parseLog` returns null, i.e. the log
does not match any event of the lock interface). The decode result is a
property of the log data alone, independent of the emitting address. -/
structure Log where
  address : String
  parsed : Option ParsedEvent
deriving Repr, DecidableEq

/-- The mined-transaction receipt from `provider.waitForTransaction`. -/
structure Receipt where
  status : Nat
  logs : List Log
deriving Repr, DecidableEq

/-- Source lines 664-667: a log is decoded only when its emitting address
equals the lock address (case-insensitively); logs from other addresses
are mapped to nothing before any decode is considered. -/
def decodeTargetLog (lockAddress : String) (log : Log) : Option ParsedEvent :=
  if toLowerAddr log.address ≠ toLowerAddr lockAddress then none
  else log.parsed

/-- One step of the scan on source lines 663-668: the contribution of one
log to the `map`/`find` chain — something only when the log is emitted by
the lock address, decodes, and the decoded event is named `Transfer`. -/
def transferOf (lockAddress : String) (log : Log) : Option ParsedEvent :=
  match decodeTargetLog lockAddress log with
  | some evt => if evt.name = "Transfer" then some evt else none
  | none => none

/-- Source lines 663-668: scan the receipt logs for the first decoded
event named `Transfer`, decoding only logs emitted by the lock address. -/
def findTransferEvent (lockAddress : String) (logs : List Log) : Option ParsedEvent :=
  logs.findSome? (transferOf lockAddress)

/-- Failure reasons of `purchaseKey` that the embedding distinguishes. -/
inductive PurchaseError
  | transactionFailed
deriving Repr, DecidableEq

/-- Source lines 655-675: the Confirmation Resolver. A status-0 receipt
throws `Transaction failed`; otherwise the first `Transfer` event emitted
by the lock yields its token id, and its absence yields null (`ok none`). -/
def waitAndConfirm (lockAddress : String) (receipt : Receipt) :
    Except PurchaseError (Option Nat) :=
  if receipt.status = 0 then .error .transactionFailed
  else
    match findTransferEvent lockAddress receipt.logs with
    | some evt => .ok (some evt.tokenId)
    | none => .ok none

/-- The mutable `transactionOptions` object: each field absent (`none`)
until set; `delete` sets it back to `none`. -/
structure TxOptions where
  value : Option Nat := none
  gasLimit : Option Nat := none
  maxFeePerGas : Option Nat := none
  maxPriorityFeePerGas : Option Nat := none
  gasPrice : Option Nat := none
deriving Repr, DecidableEq

/-- The result of `provider.getFeeData()`: each field may be null. -/
structure FeeData where
  gasPrice : Option Nat := none
  maxFeePerGas : Option Nat := none
  maxPriorityFeePerGas : Option Nat := none
deriving Repr, DecidableEq

/-- The `swap` parameter of `purchaseKey`: source token, router, opaque
swap payload, native value to forward, and the slippage-bounded maximum
input amount. -/
structure Swap where
  srcTokenAddress : Option String
  uniswapRouter : String
  swapCallData : String
  value : Option Nat
  amountInMax : Nat
deriving Repr, DecidableEq

/-- Source lines 578-627, the Gas Estimator. Runs only when
`transactionOptions.gasLimit` is falsy. `feeData` is the result of
`provider.getFeeData()` (`none` = the fetch threw), `gasEstimate` the
result of the `estimateGas` call for the built transaction, direct or
swap-and-call (`none` = the estimate threw). On success the three fee
fields are deleted and the gas limit set to `estimate * 13 / 10`; on any
failure the three fee fields are deleted and nothing else changes. -/
def estimateGasStep (feeData : Option FeeData) (gasEstimate : Option Nat)
    (opts : TxOptions) : TxOptions :=
  if truthy opts.gasLimit then opts
  else
    match feeData with
    | none =>
        { opts with maxFeePerGas := none, maxPriorityFeePerGas := none,
                    gasPrice := none }
    | some fd =>
        let opts1 :=
          if truthy fd.maxFeePerGas && truthy fd.maxPriorityFeePerGas then
            { opts with maxFeePerGas := fd.maxFeePerGas,
                        maxPriorityFeePerGas := fd.maxPriorityFeePerGas }
          else
            { opts with gasPrice := fd.gasPrice }
        match gasEstimate with
        | none =>
            { opts1 with maxFeePerGas := none, maxPriorityFeePerGas := none,
                         gasPrice := none }
        | some g =>
            { opts1 with maxFeePerGas := none, maxPriorityFeePerGas := none,
                         gasPrice := none, gasLimit := some (g * 13 / 10) }

/-- Models `utils.toDecimal(keyPrice, decimals)` for a whole-number
nominal price: `parseUnits` of the integer string is the price scaled by
`10 ^ decimals`. -/
def toDecimal (price decimals : Nat) : Nat := price * 10 ^ decimals

/-- Results of the remote calls `purchaseKey` makes, in source order.
`none` on a fallible field means the underlying call threw. -/
structure PurchaseEnv where
  signerAddress : String
  swapPurchaserAddress : String
  lockTokenAddress : String
  lockKeyPrice : Nat
  erc20Decimals : String → Nat
  feeData : Option FeeData
  gasEstimate : Option Nat
  receipt : Receipt

/-- Source lines 523-526: if no `erc20Address` was provided, read it from
`lockContract.tokenAddress()`. -/
def resolveErc20Address (erc20Address : Option String) (env : PurchaseEnv) : String :=
  match erc20Address with
  | none => env.lockTokenAddress
  | some a => a

/-- Source lines 534-541: resolve decimals from the ERC20 contract when
the token address is truthy and not the zero sentinel, else default 18. -/
def resolveDecimals (erc20Address : String) (env : PurchaseEnv) : Nat :=
  if erc20Address != "" && erc20Address != ZERO then env.erc20Decimals erc20Address
  else 18

/-- Source lines 527-542, the Amount Resolver: no price given reads the
lock price; price with explicit decimals converts directly; otherwise
decimals are resolved from the token contract (or default 18). -/
def resolveAmount (keyPrice : Option Nat) (decimals : Option Nat)
    (erc20Address : String) (env : PurchaseEnv) : Nat :=
  match keyPrice with
  | none => env.lockKeyPrice
  | some p =>
    match decimals with
    | some d => toDecimal p d
    | none => toDecimal p (resolveDecimals erc20Address env)

/-- Source lines 550-558: a native-priced lock sets the transaction value
to the resolved amount; a swap with a truthy `value` field then overrides
the transaction value. -/
def setTxValue (erc20Address : String) (actualAmount : Nat)
    (swap : Option Swap) (opts : TxOptions) : TxOptions :=
  let opts :=
    if erc20Address == "" || erc20Address == ZERO then
      { opts with value := some actualAmount }
    else opts
  match swap with
  | some s => if truthy s.value then { opts with value := s.value } else opts
  | none => opts

/-- The argument object handed to `approveAllowance`. -/
structure ApprovalRequest where
  erc20Address : Option String
  address : String
  totalAmountToApprove : Nat
deriving Repr, DecidableEq

/-- Source lines 560-571: with a swap, approve the swap source token for
the swap-purchaser contract up to `amountInMax`; without, approve the
payment token for the lock up to the resolved amount. -/
def approvalOptionsFor (swap : Option Swap) (erc20Address lockAddress : String)
    (swapPurchaserAddress : String) (actualAmount : Nat) : ApprovalRequest :=
  match swap with
  | some s =>
      { erc20Address := s.srcTokenAddress, address := swapPurchaserAddress,
        totalAmountToApprove := s.amountInMax }
  | none =>
      { erc20Address := some erc20Address, address := lockAddress,
        totalAmountToApprove := actualAmount }

/-- Source lines 573-576: approval is requested only when the selected
token address is truthy and not the zero sentinel. -/
def approvalNeeded (req : ApprovalRequest) : Bool :=
  match req.erc20Address with
  | none => false
  | some a => a != "" && a != ZERO

/-- The scalar parameters of `purchaseKey`; optional ones default inside
the function exactly as in the source. -/
structure PurchaseParams where
  lockAddress : String
  owner : Option String := none
  keyPrice : Option Nat := none
  erc20Address : Option String := none
  decimals : Option Nat := none
  referrer : Option String := none
  data : Option String := none
  swap : Option Swap := none

/-- The `purchase` call arguments encoded into the call data
(source lines 544-548). -/
structure PurchaseCallArgs where
  actualAmount : Nat
  owner : String
  referrer : String
  data : String
deriving Repr, DecidableEq

/-- Everything observable about one `purchaseKey` run: the approval it
requested (if any), the encoded call arguments, the transaction options
it submitted with, and the confirmation result. -/
structure PurchaseOutcome where
  approval : Option ApprovalRequest
  callArgs : PurchaseCallArgs
  txOptions : TxOptions
  result : Except PurchaseError (Option Nat)

/-- Source lines 488-675: the full `purchaseKey` pipeline — default the
owner, referrer, data and token address; resolve the amount; set the
transaction value; select and gate the approval; run gas estimation;
submit; wait for the receipt and extract the token id. -/
def purchaseKey (p : PurchaseParams) (opts0 : TxOptions) (env : PurchaseEnv) :
    PurchaseOutcome :=
  let owner := p.owner.getD env.signerAddress
  let referrer := p.referrer.getD ZERO
  let data := p.data.getD "0x"
  let erc20Address := resolveErc20Address p.erc20Address env
  let actualAmount := resolveAmount p.keyPrice p.decimals erc20Address env
  let opts1 := setTxValue erc20Address actualAmount p.swap opts0
  let approvalOptions :=
    approvalOptionsFor p.swap erc20Address p.lockAddress env.swapPurchaserAddress
      actualAmount
  let approval := if approvalNeeded approvalOptions then some approvalOptions else none
  let opts2 := estimateGasStep env.feeData env.gasEstimate opts1
  { approval := approval
    callArgs := { actualAmount := actualAmount, owner := owner,
                  referrer := referrer, data := data }
    txOptions := opts2
    result := waitAndConfirm p.lockAddress env.receipt }

/-- The pricing route consumed by `ConfirmSwapAndPurchase.onConfirmCrypto`:
`quoteBaseUnits` is `ethers.parseUnits(route.quote.toFixed(), decimals)`,
the quoted input amount in base units of the source token. -/
structure Route where
  srcTokenAddress : Option String
  swapRouter : String
  swapCalldata : String
  value : Option Nat
  quoteBaseUnits : Nat
deriving Repr, DecidableEq

/-- Source lines 339-352: the `swap` object built by `onConfirmCrypto`,
with `amountInMax` the quoted base-unit amount inflated by the 1%
slippage buffer, `quote * 101 / 100` in BigInt (floor) arithmetic. -/
def buildSwap (route : Route) : Swap :=
  { srcTokenAddress := route.srcTokenAddress
    uniswapRouter := route.swapRouter
    swapCallData := route.swapCalldata
    value := route.value
    amountInMax := route.quoteBaseUnits * 101 / 100 }

/-- The batched purchase request assembled by `onConfirmCrypto`
(source lines 364-380): one owner list of length N and optional
per-recipient arrays. -/
structure PurchaseRequest where
  lockAddress : String
  owners : List String
  keyPrices : Option (List Nat) := none
  keyManagers : Option (List String) := none
  referrers : Option (List String) := none
  dataPayloads : Option (List String) := none
  recurringPayments : Option (List Nat) := none
deriving Repr, DecidableEq

/-- An absent per-recipient array is fine; a present one must have
exactly `n` entries. -/
def lenOk {α : Type} (n : Nat) : Option (List α) → Bool
  | none => true
  | some xs => xs.length == n

/-- Modelled from the spec: `walletService.purchaseKeys`, the batched
request validation site, is not under src/ (only its caller
`onConfirmCrypto` is). The spec requires that every present
per-recipient array has length exactly N, the number of recipients. -/
def validatePurchaseRequest (req : PurchaseRequest) : Bool :=
  let n := req.owners.length
  lenOk n req.keyPrices && lenOk n req.keyManagers && lenOk n req.referrers &&
    lenOk n req.dataPayloads && lenOk n req.recurringPayments

/-- Modelled from the spec: the `purchaseKeys` entry point validates the
request before any network call; a mismatched request fails with an error
and an empty trace of network calls, a valid one proceeds to the purchase
pipeline. The first component lists the network calls performed. -/
def purchaseKeysModel (req : PurchaseRequest) : List String × Option String :=
  if validatePurchaseRequest req then (["purchase"], none)
  else ([], some "length mismatch")

/-- Source lines 323-325: the referrer array is built by mapping the
referrer lookup over the recipients. -/
def buildReferrers (recipients : List String) (referrerOf : String → String) :
    List String :=
  recipients.map referrerOf

/-- Source lines 259-261: the recurring-payment array, when a count is
configured, repeats it once per recipient. -/
def buildRecurringPayments (recipients : List String) (amount : Option Nat) :
    Option (List Nat) :=
  amount.map fun a => List.replicate recipients.length a

/-! ## Concrete example inputs used by witnesses and counterexamples -/

/-- A status-1 receipt whose first log is a Transfer-shaped log emitted by
the payment token (token id 99) and whose second log is the lock Transfer
(token id 5). -/
def exampleReceipt : Receipt :=
  { status := 1
    logs := [{ address := "0xtoken", parsed := some { name := "Transfer", tokenId := 99 } },
             { address := "0xlock", parsed := some { name := "Transfer", tokenId := 5 } }] }

/-- An environment whose receipt has status 0 yet contains a lock-emitted
Transfer log. -/
def revertedEnv : PurchaseEnv :=
  { signerAddress := "0xme"
    swapPurchaserAddress := "0xsp"
    lockTokenAddress := ZERO
    lockKeyPrice := 5
    erc20Decimals := fun _ => 18
    feeData := none
    gasEstimate := none
    receipt := { status := 0
                 logs := [{ address := "0xlock",
                            parsed := some { name := "Transfer", tokenId := 5 } }] } }

/-- An environment where the fee-data fetch and the gas estimate both
succeed (EIP-1559 fee pair available, estimate 100). -/
def estimableEnv : PurchaseEnv :=
  { signerAddress := "0xme"
    swapPurchaserAddress := "0xsp"
    lockTokenAddress := ZERO
    lockKeyPrice := 5
    erc20Decimals := fun _ => 18
    feeData := some { maxFeePerGas := some 11, maxPriorityFeePerGas := some 2 }
    gasEstimate := some 100
    receipt := exampleReceipt }

/-- An environment where the fee data arrives but the gas estimate call
throws. -/
def estimateFailsEnv : PurchaseEnv :=
  { signerAddress := "0xme"
    swapPurchaserAddress := "0xsp"
    lockTokenAddress := ZERO
    lockKeyPrice := 5
    erc20Decimals := fun _ => 18
    feeData := some { gasPrice := some 7 }
    gasEstimate := none
    receipt := exampleReceipt }

/-- An environment resolving six decimals for every token contract. -/
def sixDecimalsEnv : PurchaseEnv :=
  { signerAddress := "0xme"
    swapPurchaserAddress := "0xsp"
    lockTokenAddress := "0xtok"
    lockKeyPrice := 5
    erc20Decimals := fun _ => 6
    feeData := none
    gasEstimate := none
    receipt := exampleReceipt }

/-- A swap route object whose native-value field is zero (falsy). -/
def swapZeroValue : Swap :=
  { srcTokenAddress := some "0xsrc"
    uniswapRouter := "0xrouter"
    swapCallData := "0xcd"
    value := some 0
    amountInMax := 1010 }

/-- A swap route object carrying a nonzero native value. -/
def swapWithValue : Swap :=
  { srcTokenAddress := some "0xsrc"
    uniswapRouter := "0xrouter"
    swapCallData := "0xcd"
    value := some 42
    amountInMax := 1010 }

/-- A well-formed two-recipient request with a matching price array. -/
def matchedRequest : PurchaseRequest :=
  { lockAddress := "0xlock"
    owners := ["0xa", "0xb"]
    keyPrices := some [1, 2] }

/-- A two-recipient request whose price array has only one entry. -/
def mismatchedRequest : PurchaseRequest :=
  { lockAddress := "0xlock"
    owners := ["0xa", "0xb"]
    keyPrices := some [1] }

/-! ## Helper lemmas -/

/-- A log emitted by an address other than the target contributes nothing
to the Transfer scan, whatever it decodes to. -/
theorem transferOf_eq_none_of_addr (lockAddress : String) (log : Log)
    (h : toLowerAddr log.address ≠ toLowerAddr lockAddress) :
    transferOf lockAddress log = none := by
  simp [transferOf, decodeTargetLog, h]

/-- Restricting the scan to the logs emitted by the target address does
not change its result. -/
theorem findTransferEvent_filter (lockAddress : String) (logs : List Log) :
    findTransferEvent lockAddress
        (logs.filter fun log => toLowerAddr log.address == toLowerAddr lockAddress)
      = findTransferEvent lockAddress logs := by
  induction logs with
  | nil => rfl
  | cons log rest ih =>
    by_cases h : toLowerAddr log.address = toLowerAddr lockAddress
    · rw [List.filter_cons_of_pos (by simpa using h)]
      simp only [findTransferEvent, List.findSome?] at ih ⊢
      cases transferOf lockAddress log with
      | some evt => rfl
      | none => exact ih
    · rw [List.filter_cons_of_neg (by simpa using h)]
      simp only [findTransferEvent, List.findSome?] at ih ⊢
      rw [transferOf_eq_none_of_addr lockAddress log h]
      exact ih

/-- The `setTxValue` step touches only the `value` field. -/
theorem setTxValue_gas_fields (a : String) (amt : Nat) (s : Option Swap)
    (opts : TxOptions) :
    (setTxValue a amt s opts).gasLimit = opts.gasLimit
      ∧ (setTxValue a amt s opts).maxFeePerGas = opts.maxFeePerGas
      ∧ (setTxValue a amt s opts).maxPriorityFeePerGas = opts.maxPriorityFeePerGas
      ∧ (setTxValue a amt s opts).gasPrice = opts.gasPrice := by
  unfold setTxValue
  cases s with
  | none => dsimp only; split <;> exact ⟨rfl, rfl, rfl, rfl⟩
  | some sw =>
    dsimp only
    split <;> split <;> exact ⟨rfl, rfl, rfl, rfl⟩

/-- On any failure of the fee fetch or the estimate, the gas step just
deletes the three fee fields. -/
theorem estimateGasStep_failure (fd? : Option FeeData) (ge : Option Nat)
    (opts : TxOptions) (h : truthy opts.gasLimit = false)
    (hfail : fd? = none ∨ ge = none) :
    estimateGasStep fd? ge opts =
      { opts with maxFeePerGas := none, maxPriorityFeePerGas := none,
                  gasPrice := none } := by
  cases opts with
  | mk v gl mf mp gp =>
    rcases hfail with hf | hg
    · subst hf
      simp [estimateGasStep, h]
    · subst hg
      cases fd? with
      | none => simp [estimateGasStep, h]
      | some fd =>
        simp only [estimateGasStep, h, Bool.false_eq_true, if_false]
        split <;> rfl

/-- On success of both the fee fetch and the estimate, the gas step sets
the limit to floor(estimate * 13 / 10) and deletes the fee fields. -/
theorem estimateGasStep_success (fd : FeeData) (g : Nat) (opts : TxOptions)
    (h : truthy opts.gasLimit = false) :
    (estimateGasStep (some fd) (some g) opts).gasLimit = some (g * 13 / 10)
      ∧ (estimateGasStep (some fd) (some g) opts).maxFeePerGas = none
      ∧ (estimateGasStep (some fd) (some g) opts).maxPriorityFeePerGas = none
      ∧ (estimateGasStep (some fd) (some g) opts).gasPrice = none := by
  simp only [estimateGasStep, h, Bool.false_eq_true, if_false]
  exact ⟨trivial, trivial, trivial, trivial⟩

/-- A present-array length check accepted by `lenOk` pins the length. -/
theorem lenOk_spec {α : Type} (n : Nat) (o : Option (List α))
    (h : lenOk n o = true) : ∀ xs, o = some xs → xs.length = n := by
  intro xs hxs
  subst hxs
  simpa [lenOk] using h

/-! ## Claim theorems -/

/-- C1: for a mined receipt with success (nonzero) status, the Confirmation
Resolver returns exactly the token id of the first Transfer event emitted
by the target lock address, and a null (ambiguous-success) result when no
such log exists; logs emitted by any other address are ignored even when
they decode to the same Transfer shape, so restricting the receipt to the
target-emitted logs does not change the result. -/
theorem confirm_scans_only_target_logs (lockAddress : String) (receipt : Receipt)
    (hs : receipt.status ≠ 0) :
    waitAndConfirm lockAddress receipt
        = .ok ((findTransferEvent lockAddress receipt.logs).map fun evt => evt.tokenId)
      ∧ findTransferEvent lockAddress receipt.logs
          = findTransferEvent lockAddress
              (receipt.logs.filter fun log =>
                toLowerAddr log.address == toLowerAddr lockAddress)
      ∧ (findTransferEvent lockAddress receipt.logs = none →
          waitAndConfirm lockAddress receipt = .ok none) := by
  refine ⟨?_, (findTransferEvent_filter lockAddress receipt.logs).symm, ?_⟩
  · simp only [waitAndConfirm, hs, if_false]
    cases findTransferEvent lockAddress receipt.logs <;> rfl
  · intro h
    simp only [waitAndConfirm, hs, if_false, h]

/-- C1 witness: on `exampleReceipt` the resolver yields the lock token id 5,
not the token-contract value 99. -/
theorem confirm_scans_only_target_logs_witness :
    waitAndConfirm "0xlock" exampleReceipt = .ok (some 5) := by
  have h := (confirm_scans_only_target_logs "0xlock" exampleReceipt (by decide)).1
  rw [h]
  have e : findTransferEvent "0xlock" exampleReceipt.logs
      = some { name := "Transfer", tokenId := 5 } := by decide
  rw [e]
  rfl

/-- C2: whenever the mined receipt has status 0, the whole purchase fails
with TransactionFailed, regardless of the receipt logs; no token id is
returned. -/
theorem status_zero_always_fails (p : PurchaseParams) (opts0 : TxOptions)
    (env : PurchaseEnv) (h : env.receipt.status = 0) :
    (purchaseKey p opts0 env).result = .error .transactionFailed := by
  simp [purchaseKey, waitAndConfirm, h]

/-- C2 witness: a concrete run over a status-0 receipt that even contains a
lock-emitted Transfer log still fails with TransactionFailed. -/
theorem status_zero_always_fails_witness :
    (purchaseKey { lockAddress := "0xlock" } {} revertedEnv).result
      = .error .transactionFailed :=
  status_zero_always_fails _ _ _ (by decide)

/-- C3: when the caller supplied no gas limit and both the fee-data fetch
and the gas estimate succeed, the submitted transaction options carry a
gas limit of exactly floor(estimate * 13 / 10) — 130% of the estimate,
rounded down — and none of the fee overrides (maxFeePerGas,
maxPriorityFeePerGas, gasPrice) that were set before estimating. -/
theorem gas_success_sets_limit_and_drops_fees (p : PurchaseParams)
    (opts0 : TxOptions) (env : PurchaseEnv) (fd : FeeData) (g : Nat)
    (h0 : truthy opts0.gasLimit = false)
    (hfd : env.feeData = some fd) (hg : env.gasEstimate = some g) :
    (purchaseKey p opts0 env).txOptions.gasLimit = some (g * 13 / 10)
      ∧ (purchaseKey p opts0 env).txOptions.maxFeePerGas = none
      ∧ (purchaseKey p opts0 env).txOptions.maxPriorityFeePerGas = none
      ∧ (purchaseKey p opts0 env).txOptions.gasPrice = none := by
  have hkeep := setTxValue_gas_fields (resolveErc20Address p.erc20Address env)
    (resolveAmount p.keyPrice p.decimals (resolveErc20Address p.erc20Address env) env)
    p.swap opts0
  have h1 : truthy (setTxValue (resolveErc20Address p.erc20Address env)
      (resolveAmount p.keyPrice p.decimals (resolveErc20Address p.erc20Address env) env)
      p.swap opts0).gasLimit = false := by
    rw [hkeep.1]
    exact h0
  have hpk : (purchaseKey p opts0 env).txOptions
      = estimateGasStep env.feeData env.gasEstimate
          (setTxValue (resolveErc20Address p.erc20Address env)
            (resolveAmount p.keyPrice p.decimals
              (resolveErc20Address p.erc20Address env) env) p.swap opts0) := rfl
  rw [hpk, hfd, hg]
  exact estimateGasStep_success fd g _ h1

/-- C3 witness: a concrete purchase with fee data present and a gas
estimate of 100 submits with gas limit 130 and no fee overrides. -/
theorem gas_success_sets_limit_and_drops_fees_witness :
    (purchaseKey { lockAddress := "0xlock" } {} estimableEnv).txOptions.gasLimit
        = some 130
      ∧ (purchaseKey { lockAddress := "0xlock" } {} estimableEnv).txOptions.maxFeePerGas
          = none
      ∧ (purchaseKey { lockAddress := "0xlock" } {}
            estimableEnv).txOptions.maxPriorityFeePerGas = none
      ∧ (purchaseKey { lockAddress := "0xlock" } {} estimableEnv).txOptions.gasPrice
          = none :=
  gas_success_sets_limit_and_drops_fees { lockAddress := "0xlock" } {} estimableEnv
    { maxFeePerGas := some 11, maxPriorityFeePerGas := some 2 } 100
    (by decide) rfl rfl

/-- C4: when the caller supplied no gas limit and either the fee-data
fetch or the gas estimate fails, the purchase still proceeds — its result
is exactly the confirmation of the submitted transaction, so the failure
is never raised — and the submitted options carry no gas limit and no fee
overrides. -/
theorem gas_failure_never_fatal (p : PurchaseParams) (opts0 : TxOptions)
    (env : PurchaseEnv) (h0 : opts0.gasLimit = none)
    (hfail : env.feeData = none ∨ env.gasEstimate = none) :
    (purchaseKey p opts0 env).txOptions.gasLimit = none
      ∧ (purchaseKey p opts0 env).txOptions.maxFeePerGas = none
      ∧ (purchaseKey p opts0 env).txOptions.maxPriorityFeePerGas = none
      ∧ (purchaseKey p opts0 env).txOptions.gasPrice = none
      ∧ (purchaseKey p opts0 env).result = waitAndConfirm p.lockAddress env.receipt := by
  have hkeep := setTxValue_gas_fields (resolveErc20Address p.erc20Address env)
    (resolveAmount p.keyPrice p.decimals (resolveErc20Address p.erc20Address env) env)
    p.swap opts0
  have h1 : (setTxValue (resolveErc20Address p.erc20Address env)
      (resolveAmount p.keyPrice p.decimals (resolveErc20Address p.erc20Address env) env)
      p.swap opts0).gasLimit = none := by
    rw [hkeep.1]
    exact h0
  have hpk : (purchaseKey p opts0 env).txOptions
      = estimateGasStep env.feeData env.gasEstimate
          (setTxValue (resolveErc20Address p.erc20Address env)
            (resolveAmount p.keyPrice p.decimals
              (resolveErc20Address p.erc20Address env) env) p.swap opts0) := rfl
  have hstep := estimateGasStep_failure env.feeData env.gasEstimate
    (setTxValue (resolveErc20Address p.erc20Address env)
      (resolveAmount p.keyPrice p.decimals
        (resolveErc20Address p.erc20Address env) env) p.swap opts0)
    (by rw [h1]; rfl) hfail
  rw [hpk, hstep]
  exact ⟨h1, rfl, rfl, rfl, rfl⟩

/-- C4 witness: with fee data present but a failing estimate, the concrete
purchase submits with no gas or fee overrides and still resolves the
receipt (token id 5). -/
theorem gas_failure_never_fatal_witness :
    (purchaseKey { lockAddress := "0xlock" } {} estimateFailsEnv).txOptions.gasLimit
        = none
      ∧ (purchaseKey { lockAddress := "0xlock" } {}
            estimateFailsEnv).txOptions.maxFeePerGas = none
      ∧ (purchaseKey { lockAddress := "0xlock" } {}
            estimateFailsEnv).txOptions.maxPriorityFeePerGas = none
      ∧ (purchaseKey { lockAddress := "0xlock" } {} estimateFailsEnv).txOptions.gasPrice
          = none
      ∧ (purchaseKey { lockAddress := "0xlock" } {} estimateFailsEnv).result
          = waitAndConfirm "0xlock" estimateFailsEnv.receipt :=
  gas_failure_never_fatal { lockAddress := "0xlock" } {} estimateFailsEnv rfl
    (Or.inr rfl)

/-- C5: the maximum input amount of the swap built by `onConfirmCrypto` is
the quoted base-unit amount times 101, divided by 100, rounded down; for a
1000 base-unit quote it is 1010. -/
theorem swap_amountInMax_slippage (route : Route) :
    (buildSwap route).amountInMax = route.quoteBaseUnits * 101 / 100
      ∧ (buildSwap { route with quoteBaseUnits := 1000 }).amountInMax = 1010 :=
  ⟨rfl, by norm_num [buildSwap]⟩

/-- C6: the Amount Resolver case order — no price reads the lock default
price; price with explicit decimals converts directly; price without
decimals resolves decimals from the token contract for a non-sentinel
token and uses 18 for the native sentinel. -/
theorem amount_resolution_policy (env : PurchaseEnv) (p d : Nat) (a : String)
    (dec : Option Nat) :
    resolveAmount none dec a env = env.lockKeyPrice
      ∧ resolveAmount (some p) (some d) a env = toDecimal p d
      ∧ (a ≠ "" → a ≠ ZERO →
          resolveAmount (some p) none a env = toDecimal p (env.erc20Decimals a))
      ∧ resolveAmount (some p) none ZERO env = toDecimal p 18 := by
  refine ⟨rfl, rfl, ?_, ?_⟩
  · intro h1 h2
    simp [resolveAmount, resolveDecimals, h1, h2]
  · simp [resolveAmount, resolveDecimals]

/-- C6 witness: a 7-unit nominal price with no explicit decimals over a
six-decimal token contract resolves to 7000000 base units. -/
theorem amount_resolution_policy_witness :
    resolveAmount (some 7) none "0xtok" sixDecimalsEnv = 7000000 :=
  (amount_resolution_policy sixDecimalsEnv 7 0 "0xtok" none).2.2.1
    (by decide) (by decide)

/-- C7 counterexample: with a native-priced lock (token sentinel ZERO,
amount 5) and a present swap route whose native-value field is zero
(falsy), the submitted value is the inner purchase amount 5 — it is not
taken from the swap route value, which is 0. -/
theorem swap_value_override_counterexample :
    (setTxValue ZERO 5 (some swapZeroValue) {}).value = some 5
      ∧ swapZeroValue.value = some 0 := by
  constructor
  · decide
  · rfl

/-- C7 amended: the swap route native-value overrides the transaction
value exactly when it is present and nonzero (truthy); when it is absent
or zero the value set by the inner direct encoding is kept. -/
theorem swap_value_override (a : String) (amt : Nat) (s : Swap)
    (opts : TxOptions) :
    (truthy s.value = true → (setTxValue a amt (some s) opts).value = s.value)
      ∧ (truthy s.value = false →
          (setTxValue a amt (some s) opts).value = (setTxValue a amt none opts).value) := by
  constructor <;> intro h <;> simp [setTxValue, h]

/-- C7 amended witness: a swap route with nonzero native value 42 makes
the submitted value 42. -/
theorem swap_value_override_witness :
    (setTxValue ZERO 5 (some swapWithValue) {}).value = swapWithValue.value :=
  (swap_value_override ZERO 5 swapWithValue {}).1 (by decide)

/-- C8: a request accepted by validation has every present per-recipient
array of length exactly N (the recipient count); a request with a
mismatched array fails validation and no network call is made; and the
referrer and recurring-payment arrays the checkout handler builds always
have length N (the validation site is modelled from the spec). -/
theorem request_arrays_length (req : PurchaseRequest)
    (referrerOf : String → String) (amount : Option Nat) :
    (validatePurchaseRequest req = true →
        (∀ xs, req.keyPrices = some xs → xs.length = req.owners.length)
          ∧ (∀ xs, req.keyManagers = some xs → xs.length = req.owners.length)
          ∧ (∀ xs, req.referrers = some xs → xs.length = req.owners.length)
          ∧ (∀ xs, req.dataPayloads = some xs → xs.length = req.owners.length)
          ∧ (∀ xs, req.recurringPayments = some xs → xs.length = req.owners.length))
      ∧ (validatePurchaseRequest req = false →
          purchaseKeysModel req = ([], some "length mismatch"))
      ∧ (buildReferrers req.owners referrerOf).length = req.owners.length
      ∧ (∀ xs, buildRecurringPayments req.owners amount = some xs →
          xs.length = req.owners.length) := by
  refine ⟨?_, ?_, List.length_map _ _, ?_⟩
  · intro h
    simp only [validatePurchaseRequest, Bool.and_eq_true] at h
    exact ⟨lenOk_spec _ _ h.1.1.1.1, lenOk_spec _ _ h.1.1.1.2,
      lenOk_spec _ _ h.1.1.2, lenOk_spec _ _ h.1.2, lenOk_spec _ _ h.2⟩
  · intro h
    simp [purchaseKeysModel, h]
  · intro xs hxs
    cases amount with
    | none => simp [buildRecurringPayments] at hxs
    | some a =>
      have h2 : List.replicate req.owners.length a = xs := by
        simpa [buildRecurringPayments] using hxs
      rw [← h2]
      exact List.length_replicate _ _

/-- C8 witness: the matched two-recipient request passes validation with a
price array of length 2 and the mismatched one fails validation with no
network call performed. -/
theorem request_arrays_length_witness :
    (∀ xs, matchedRequest.keyPrices = some xs → xs.length = matchedRequest.owners.length)
      ∧ purchaseKeysModel mismatchedRequest = ([], some "length mismatch") :=
  ⟨((request_arrays_length matchedRequest id none).1 (by decide)).1,
   (request_arrays_length mismatchedRequest id none).2.1 (by decide)⟩

/-- C9: with a swap route the approval names the swap source token, the
swap-purchaser contract and the slippage-bounded maximum input amount;
without one it names the payment token, the lock and the resolved amount;
and in either case no approval is requested when the selected token is
absent or the zero-address sentinel, while a present non-sentinel token
always triggers one. -/
theorem approval_selection (s : Swap) (erc20 lockAddr spAddr : String)
    (amt : Nat) :
    approvalOptionsFor (some s) erc20 lockAddr spAddr amt
        = { erc20Address := s.srcTokenAddress, address := spAddr,
            totalAmountToApprove := s.amountInMax }
      ∧ approvalOptionsFor none erc20 lockAddr spAddr amt
          = { erc20Address := some erc20, address := lockAddr,
              totalAmountToApprove := amt }
      ∧ approvalNeeded { erc20Address := none, address := spAddr,
                         totalAmountToApprove := amt } = false
      ∧ approvalNeeded { erc20Address := some ZERO, address := spAddr,
                         totalAmountToApprove := amt } = false
      ∧ (∀ a : String, a ≠ "" → a ≠ ZERO →
          approvalNeeded { erc20Address := some a, address := spAddr,
                           totalAmountToApprove := amt } = true) := by
  refine ⟨rfl, rfl, rfl, by simp [approvalNeeded], ?_⟩
  intro a h1 h2
  simp [approvalNeeded, h1, h2]

/-- C9 witness: a present non-sentinel token address triggers an approval
request. -/
theorem approval_selection_witness :
    approvalNeeded { erc20Address := some "0xtok", address := "0xlock",
                     totalAmountToApprove := 5 } = true :=
  (approval_selection swapWithValue "0xtok" "0xlock" "0xsp" 5).2.2.2.2 "0xtok"
    (by decide) (by decide)

/-- C10 counterexample: a caller-supplied gas limit of 0 is present but
falsy, so the estimation step still runs and replaces it — here the 100
estimate turns a supplied gas limit of 0 into 130. -/
theorem gas_skip_counterexample :
    (estimateGasStep (some { gasPrice := some 3 }) (some 100)
        { gasLimit := some 0 }).gasLimit = some 130
      ∧ ({ gasLimit := some 0 } : TxOptions).gasLimit = some 0 := by
  constructor
  · decide
  · rfl

/-- C10 amended: a nonzero (truthy) caller-supplied gas limit makes the
estimation step return the options exactly unchanged, for every fee-data
and gas-estimate outcome — so neither remote call can affect the
submitted options. -/
theorem gas_skip_when_limit_supplied (fd : Option FeeData) (ge : Option Nat)
    (opts : TxOptions) (h : truthy opts.gasLimit = true) :
    estimateGasStep fd ge opts = opts := by
  simp [estimateGasStep, h]

/-- C10 amended witness: caller options with gas limit 21000 and a fee
override pass through the estimation step untouched. -/
theorem gas_skip_when_limit_supplied_witness :
    estimateGasStep (some { gasPrice := some 3 }) (some 100)
        { gasLimit := some 21000, maxFeePerGas := some 7 }
      = { gasLimit := some 21000, maxFeePerGas := some 7 } :=
  gas_skip_when_limit_supplied _ _ _ (by decide)

end Unlock
